import Mathlib

/-!
Verification of the authentication core of recommend-site-app-server.

The embedding follows `src/auth/auth.service.ts` (AuthService: validateUser,
login, refreshToken, validateAccessToken).  The service's collaborators
(RefreshTokenRepository, JwtService, UsersService, VisitorService) are not part
of the given source tree; they are modelled from the specification, with a doc
comment on each modelled definition recording what is missing and which part of
the spec it follows.  Time is an integer count of seconds; asynchronous calls
become explicit state passing, and the outcome of each fallible collaborator
call is an explicit parameter of the operation (the `Env` record), so that every
interleaving of successes and failures the runtime could produce is a concrete
input of the model.
-/

set_option autoImplicit false

namespace RecommendSite

/-- User entity as used by the auth service: id, email, role enter the JWT
payload; passwordHash is compared by validateUser; name/nickname/email are
echoed by login. -/
structure User where
  id : Nat
  email : String
  role : String
  name : String
  nickname : String
  passwordHash : String
deriving DecidableEq

/-- jwtPayloadInterface from `src/auth/types/jwt-payload.interface.ts` as built
by login and refreshToken: `{ id, email, role }`. -/
structure JwtPayload where
  id : Nat
  email : String
  role : String
deriving DecidableEq

/-- Modelled from the spec: the Token Issuer (JwtService, not under src/).
Per spec §4.1 a signed token "deterministically encodes payload plus an expiry
derived from now + ttl, signs with the configured secret"; access tokens are
"self-contained signed artifacts containing payload {id, email, role} plus
expiry".  A token is therefore determined by the signing secret, the payload
and the absolute expiry; any string that is not such an artifact is
`malformed`. -/
inductive Token where
  | signed (secret : String) (payload : JwtPayload) (exp : Int)
  | malformed (s : String)
deriving DecidableEq

/-- Modelled from the spec: `issue(payload, ttl) -> signedTokenString` of §4.1,
encoding the payload with expiry `now + ttl` under the given secret. -/
def sign (secret : String) (payload : JwtPayload) (ttl : Int) (now : Int) : Token :=
  .signed secret payload (now + ttl)

/-- Modelled from the spec: `verify(tokenString, secret) -> payload` of §4.1,
failing "when the signature does not match, the token is malformed, or
now > encoded expiry". -/
def verify (secret : String) (t : Token) (now : Int) : Option JwtPayload :=
  match t with
  | .signed s p exp => if s = secret ∧ ¬ now > exp then some p else none
  | .malformed _ => none

/-- Embedded expiry of a signed token (the `exp` claim); none for a malformed
string. -/
def tokenExp : Token → Option Int
  | .signed _ _ exp => some exp
  | .malformed _ => none

/-- Refresh-token TTL: the `expiresIn: '7d'` option, in seconds. -/
def sevenDays : Int := 604800

/-- Access-token TTL: the `expiresIn: '15m'` option, in seconds. -/
def fifteenMinutes : Int := 900

/-- RefreshToken entity per spec §3: id, token string, owner email, absolute
expiry, revoked flag (default false).  createdAt is omitted: no operation of
the auth core reads it. -/
structure RefreshTokenRecord where
  id : Nat
  token : Token
  userEmail : String
  expiresAt : Int
  revoked : Bool
deriving DecidableEq

/-- State of the refresh_token table: the stored records plus the next primary
key value. -/
structure Store where
  records : List RefreshTokenRecord
  nextId : Nat
deriving DecidableEq

/-- Modelled from the spec: `save(ownerEmail, tokenString, expiresAt)` of the
Refresh Token Store (RefreshTokenRepository.saveToken, not under src/):
"inserts a new, non-revoked record"; per §3 "one new row per issuance — old
tokens are not deleted". -/
def saveToken (st : Store) (userEmail : String) (tok : Token) (expiresAt : Int) : Store :=
  { records := st.records ++ [⟨st.nextId, tok, userEmail, expiresAt, false⟩],
    nextId := st.nextId + 1 }

/-- Modelled from the spec: `findValid(tokenString)` of the Refresh Token Store
(RefreshTokenRepository.findValidToken, not under src/): "looks up by exact
token string match", leaving the expiry check to the caller (§4.2).  The
revoked flag is filtered here: §2 names the operation find-valid-by-token, §3
defines a token as valid for a refresh "if and only if it exists,
revoked == false, and now <= expiresAt", §5 describes the refresh path as a
"not yet revoked, not expired" check while the caller in src/ re-checks only
expiry, and the repository's own e2e test expects a rotated token to be
rejected on reuse.  (§4.2's aside that the revoked flag is also left to
callers is inconsistent with those clauses and with the caller's code.) -/
def findValidToken (st : Store) (tok : Token) : Option RefreshTokenRecord :=
  st.records.find? (fun r => decide (r.token = tok) && !r.revoked)

/-- Modelled from the spec: `revoke(recordId)` of the Refresh Token Store
(RefreshTokenRepository.revokeToken, not under src/): "sets revoked=true;
idempotent"; per §3 revocation flips exactly one field, a one-way
transition. -/
def revokeToken (st : Store) (id : Nat) : Store :=
  { st with records :=
      st.records.map (fun r => if r.id = id then { r with revoked := true } else r) }

/-- Modelled from the spec: failures raised by the collaborators (UsersService,
RefreshTokenRepository, VisitorService; none under src/).  Per spec §7 the
taxonomy below the auth boundary is `NotFound` ("used internally by the
user-lookup collaborator") and internal store failures; `Unauthorized` is
minted only by the Auth Service itself. -/
inductive CollabErr where
  | notFound (msg : String)
  | storeFailure (msg : String)
deriving DecidableEq

/-- Exceptions thrown inside the service's try blocks: the service's own
UnauthorizedException (HTTP status 401), a collaborator failure
(NotFoundException 404 / internal 500), or a runtime TypeError (no `status`
field) from dereferencing a null user. -/
inductive Thrown where
  | unauthorizedEx (msg : String)
  | collab (e : CollabErr)
  | typeError (msg : String)
deriving DecidableEq

/-- Status code read by refreshToken's catch clause (`error.status === 401`).
A TypeError has no status field; 0 stands for `undefined`, which compares
unequal to 401. -/
def Thrown.status : Thrown → Nat
  | .unauthorizedEx _ => 401
  | .collab (.notFound _) => 404
  | .collab (.storeFailure _) => 500
  | .typeError _ => 0

/-- Message carried by a thrown exception. -/
def Thrown.message : Thrown → String
  | .unauthorizedEx m => m
  | .collab (.notFound m) => m
  | .collab (.storeFailure m) => m
  | .typeError m => m

/-- Errors that cross the auth boundary from refreshToken and validateUser:
UnauthorizedException or InternalServerErrorException. -/
inductive AuthError where
  | unauthorized (msg : String)
  | internalServerError (msg : String)
deriving DecidableEq

/-- Errors escaping login: the InternalServerErrorException it throws itself,
or a collaborator rejection that login does not catch (saveToken and
upsertVisitorCount are awaited outside any try block). -/
inductive LoginError where
  | internalServerError (msg : String)
  | uncaught (e : Thrown)
deriving DecidableEq

/-- Response of a successful refreshToken call: `{ access_token,
refresh_token }`. -/
structure TokenPair where
  access_token : Token
  refresh_token : Token
deriving DecidableEq

/-- Response of a successful login call: `{ access_token, refresh_token, name,
nickname, email }`. -/
structure LoginResult where
  access_token : Token
  refresh_token : Token
  name : String
  nickname : String
  email : String
deriving DecidableEq

/-- Environment of one service call: the signing secret and the outcomes the
collaborators would produce if reached.  Lookups are functions of their
argument; the write-style calls (revokeToken, saveToken, upsertVisitorCount)
either succeed (`none`) or reject with the given failure.  Modelled from the
spec: the collaborators are external to src/, and §4.2/§4.4 let every await on
them fail with a store-level error. -/
structure Env where
  secret : String
  getUserByEmailResult : String → Except CollabErr (Option User)
  getUserByIdResult : Nat → Except CollabErr (Option User)
  compare : String → String → Bool
  revokeResult : Option CollabErr
  saveResult : Option CollabErr
  visitorResult : Option CollabErr

/-- AuthService.validateUser: looks up the user by email, mapping any lookup
rejection to UnauthorizedException('Invalid credentials') via `.catch`; then
`if (user && (await bcrypt.compare(password, user.passwordHash)))` returns the
user, else throws UnauthorizedException('Invalid credentials').  bcrypt.compare
is the external hash comparison, modelled as the boolean `env.compare`. -/
def validateUser (env : Env) (email password : String) : Except AuthError User :=
  match env.getUserByEmailResult email with
  | .error _ => .error (.unauthorized "Invalid credentials")
  | .ok user =>
    match user with
    | some u =>
      if env.compare password u.passwordHash then .ok u
      else .error (.unauthorized "Invalid credentials")
    | none => .error (.unauthorized "Invalid credentials")

/-- AuthService.login: builds the payload from the caller-supplied user,
re-fetches the user by id (any rejection or a null result becomes
InternalServerErrorException('Internal Server Error')), signs a 7-day refresh
token, computes expiresAt = now + 7 days, saves the record, awaits the visitor
counter, and returns the response.  saveToken and upsertVisitorCount are not
inside any try block, so their rejections escape login uncaught. -/
def login (env : Env) (st : Store) (now : Int) (user : User) :
    Except LoginError LoginResult × Store :=
  let payload : JwtPayload := ⟨user.id, user.email, user.role⟩
  match env.getUserByIdResult payload.id with
  | .error _ => (.error (.internalServerError "Internal Server Error"), st)
  | .ok none => (.error (.internalServerError "Internal Server Error"), st)
  | .ok (some userInfo) =>
    let refreshTok := sign env.secret payload sevenDays now
    let expiresAt := now + sevenDays
    match env.saveResult with
    | some e => (.error (.uncaught (.collab e)), st)
    | none =>
      let st1 := saveToken st user.email refreshTok expiresAt
      match env.visitorResult with
      | some e => (.error (.uncaught (.collab e)), st1)
      | none =>
        (.ok ⟨sign env.secret payload fifteenMinutes now, refreshTok,
              userInfo.name, userInfo.nickname, userInfo.email⟩, st1)

/-- Body of the try block of AuthService.refreshToken: look up the presented
token, throw UnauthorizedException('Invalid refresh token') if it is absent or
`new Date() > storedToken.expiresAt`, revoke the found record, fetch the owner
by email (a null user makes the subsequent `user.id` dereference a TypeError),
sign a new 7-day refresh token, save it with expiresAt = now + 7 days, await
the visitor counter, and return the new pair.  The returned Store reflects the
writes performed before any throw. -/
def refreshTokenTry (env : Env) (st : Store) (now : Int) (token : Token) :
    Except Thrown TokenPair × Store :=
  match findValidToken st token with
  | none => (.error (.unauthorizedEx "Invalid refresh token"), st)
  | some storedToken =>
    if now > storedToken.expiresAt then
      (.error (.unauthorizedEx "Invalid refresh token"), st)
    else
      match env.revokeResult with
      | some e => (.error (.collab e), st)
      | none =>
        let st1 := revokeToken st storedToken.id
        match env.getUserByEmailResult storedToken.userEmail with
        | .error e => (.error (.collab e), st1)
        | .ok none => (.error (.typeError "Cannot read properties of null"), st1)
        | .ok (some user) =>
          let payload : JwtPayload := ⟨user.id, user.email, user.role⟩
          let newRefreshToken := sign env.secret payload sevenDays now
          let expiresAt := now + sevenDays
          match env.saveResult with
          | some e => (.error (.collab e), st1)
          | none =>
            let st2 := saveToken st1 user.email newRefreshToken expiresAt
            match env.visitorResult with
            | some e => (.error (.collab e), st2)
            | none =>
              (.ok ⟨sign env.secret payload fifteenMinutes now, newRefreshToken⟩, st2)

/-- Catch clause of AuthService.refreshToken: `if (error.status === 401) throw
error; else throw new InternalServerErrorException('Problem with token
processing')`. -/
def reclassify (e : Thrown) : AuthError :=
  if e.status = 401 then .unauthorized e.message
  else .internalServerError "Problem with token processing"

/-- AuthService.refreshToken: the try body wrapped in the catch clause that
rethrows 401s and masks every other error as
InternalServerErrorException('Problem with token processing'). -/
def refreshToken (env : Env) (st : Store) (now : Int) (token : Token) :
    Except AuthError TokenPair × Store :=
  match refreshTokenTry env st now token with
  | (.ok r, st1) => (.ok r, st1)
  | (.error e, st1) => (.error (reclassify e), st1)

/-- AuthService.validateAccessToken: `jwtService.verify(token, { secret })`
inside a try block; a decoded payload yields true (`!!payload`), any
verification failure is caught and yields false.  The store argument records
that the service could consult the refresh-token store here but does not. -/
def validateAccessToken (env : Env) (_store : Store) (now : Int) (token : Token) : Bool :=
  match verify env.secret token now with
  | some _ => true
  | none => false

/-! Concrete fixtures used by witnesses and counterexamples.  The scenario: a
user logged in at time 1000, so the store holds one live refresh-token record
whose token embeds expiry 1000 + 604800 = 605800. -/

/-- Demo user record. -/
def demoUser : User := ⟨1, "a@x.com", "USER", "Alice", "ali", "h0"⟩

/-- Payload the service builds from demoUser. -/
def demoPayload : JwtPayload := ⟨1, "a@x.com", "USER"⟩

/-- Demo signing secret (the source's fallback default). -/
def demoSecret : String := "mysecretkey"

/-- Refresh token issued to demoUser at time 1000 with the 7-day TTL. -/
def demoToken : Token := .signed demoSecret demoPayload 605800

/-- Store row created for demoToken at login time 1000. -/
def demoRecord : RefreshTokenRecord := ⟨1, demoToken, "a@x.com", 605800, false⟩

/-- Store holding exactly the demo record. -/
def demoStore : Store := ⟨[demoRecord], 2⟩

/-- Empty store. -/
def emptyStore : Store := ⟨[], 1⟩

/-- Healthy environment: lookups find demoUser, the password "pw" matches the
stored hash "h0", and every write succeeds. -/
def demoEnv : Env where
  secret := demoSecret
  getUserByEmailResult := fun e =>
    if e = "a@x.com" then .ok (some demoUser) else .error (.notFound e)
  getUserByIdResult := fun i => if i = 1 then .ok (some demoUser) else .ok none
  compare := fun p h => decide (p = "pw" ∧ h = "h0")
  revokeResult := none
  saveResult := none
  visitorResult := none

/-- Environment in which the visitor counter rejects. -/
def envVisFail : Env := { demoEnv with visitorResult := some (.storeFailure "visitor down") }

/-- Environment in which saving the rotated refresh token rejects. -/
def envSaveFail : Env := { demoEnv with saveResult := some (.storeFailure "db down") }

/-- Response of a successful login of demoUser at time 1000 on emptyStore. -/
def demoLoginRes : LoginResult :=
  ⟨.signed demoSecret demoPayload 1900, .signed demoSecret demoPayload 605800,
   "Alice", "ali", "a@x.com"⟩

/-- Store after that login. -/
def demoLoginStore : Store :=
  ⟨[⟨1, .signed demoSecret demoPayload 605800, "a@x.com", 605800, false⟩], 2⟩

/-- C6: for every payload and ttl > 0, verifying issue(payload, ttl) strictly
before expiry returns the original payload; verifying strictly after expiry
fails; verification fails on every malformed token and on every signature
(secret) mismatch. -/
theorem c6_issue_verify_roundtrip (secret : String) (p : JwtPayload) (ttl now t : Int)
    (_httl : 0 < ttl) :
    (t < now + ttl → verify secret (sign secret p ttl now) t = some p) ∧
    (now + ttl < t → verify secret (sign secret p ttl now) t = none) ∧
    (∀ s : String, verify secret (.malformed s) t = none) ∧
    (∀ (s2 : String) (p2 : JwtPayload) (e : Int),
      s2 ≠ secret → verify secret (.signed s2 p2 e) t = none) := by
  refine ⟨fun h => ?_, fun h => ?_, fun s => rfl, fun s2 p2 e hne => ?_⟩
  · show (if secret = secret ∧ ¬ t > now + ttl then some p else none) = some p
    rw [if_pos ⟨rfl, by omega⟩]
  · show (if secret = secret ∧ ¬ t > now + ttl then some p else none) = none
    rw [if_neg (fun hc => hc.2 (by omega))]
  · show (if s2 = secret ∧ ¬ t > e then some p2 else none) = none
    rw [if_neg (fun hc => hne hc.1)]

/-- Closed instance of c6_issue_verify_roundtrip. -/
theorem c6_issue_verify_roundtrip_witness :
    verify demoSecret (sign demoSecret demoPayload 10 0) 5 = some demoPayload :=
  (c6_issue_verify_roundtrip demoSecret demoPayload 10 0 5 (by decide)).1 (by decide)

/-- C7: validateAccessToken is a total boolean query: its value does not depend
on the refresh-token store, and it is true exactly when verification of the
token against the configured secret succeeds at the current time. -/
theorem c7_validateAccessToken_total (env : Env) (s1 s2 : Store) (now : Int) (t : Token) :
    validateAccessToken env s1 now t = validateAccessToken env s2 now t ∧
    (validateAccessToken env s1 now t = true ↔ ∃ p, verify env.secret t now = some p) := by
  cases hv : verify env.secret t now <;>
    simp [validateAccessToken, hv]

/-- Closed instance of c7_validateAccessToken_total. -/
theorem c7_validateAccessToken_total_witness :
    validateAccessToken demoEnv demoStore 1000 demoToken = true :=
  (c7_validateAccessToken_total demoEnv demoStore emptyStore 1000 demoToken).2.mpr
    ⟨demoPayload, by decide⟩

/-- C3: validateUser returns the stored user exactly when the lookup-by-email
returns it and the password comparison succeeds; in every other case (lookup
rejects, lookup returns nothing, comparison fails) it fails with Unauthorized
carrying the single message "Invalid credentials". -/
theorem c3_validateUser_classification (env : Env) (email password : String) :
    (∀ u : User, validateUser env email password = .ok u ↔
      env.getUserByEmailResult email = .ok (some u) ∧
        env.compare password u.passwordHash = true) ∧
    (∀ e : AuthError, validateUser env email password = .error e →
      e = .unauthorized "Invalid credentials") := by
  cases hl : env.getUserByEmailResult email with
  | error err =>
    constructor
    · intro u
      simp [validateUser, hl]
    · intro e he
      simp [validateUser, hl] at he
      exact he.symm
  | ok uo =>
    cases uo with
    | none =>
      constructor
      · intro u
        simp [validateUser, hl]
      · intro e he
        simp [validateUser, hl] at he
        exact he.symm
    | some v =>
      by_cases hc : env.compare password v.passwordHash
      · constructor
        · intro u
          simp [validateUser, hl, hc]
          intro h
          exact h ▸ hc
        · intro e he
          simp [validateUser, hl, hc] at he
      · constructor
        · intro u
          simp [validateUser, hl, hc]
          intro h1
          cases h1
          simpa using hc
        · intro e he
          simp [validateUser, hl, hc] at he
          exact he.symm

/-- Closed instance of c3_validateUser_classification. -/
theorem c3_validateUser_classification_witness :
    validateUser demoEnv "a@x.com" "pw" = .ok demoUser :=
  ((c3_validateUser_classification demoEnv "a@x.com" "pw").1 demoUser).mpr
    ⟨rfl, by decide⟩

/-- C5: on every successful login, the persisted record's expiresAt is exactly
now + 7 days, equal to the expiry embedded in the signed refresh token, and the
access token is signed with a 15-minute expiry. -/
theorem c5_login_token_lifetimes (env : Env) (st : Store) (now : Int) (u : User)
    (r : LoginResult) (st1 : Store) (h : login env st now u = (.ok r, st1)) :
    r.refresh_token = Token.signed env.secret ⟨u.id, u.email, u.role⟩ (now + sevenDays) ∧
    r.access_token = Token.signed env.secret ⟨u.id, u.email, u.role⟩ (now + fifteenMinutes) ∧
    tokenExp r.refresh_token = some (now + sevenDays) ∧
    tokenExp r.access_token = some (now + fifteenMinutes) ∧
    st1.records = st.records ++
      [⟨st.nextId, r.refresh_token, u.email, now + sevenDays, false⟩] ∧
    sevenDays = 7 * 24 * 60 * 60 ∧ fifteenMinutes = 15 * 60 := by
  simp only [login] at h
  cases hid : env.getUserByIdResult u.id with
  | error e => rw [hid] at h; simp at h
  | ok uo =>
    rw [hid] at h
    cases uo with
    | none => simp at h
    | some ui =>
      cases hs : env.saveResult with
      | some e => rw [hs] at h; simp at h
      | none =>
        rw [hs] at h
        cases hv : env.visitorResult with
        | some e => rw [hv] at h; simp at h
        | none =>
          rw [hv] at h
          rw [Prod.mk.injEq] at h
          obtain ⟨h1, h2⟩ := h
          injection h1 with h1
          subst h1
          subst h2
          refine ⟨rfl, rfl, rfl, rfl, rfl, by decide, by decide⟩

/-- Closed instance of c5_login_token_lifetimes. -/
theorem c5_login_token_lifetimes_witness :
    demoLoginRes.refresh_token = Token.signed demoSecret demoPayload (1000 + sevenDays) ∧
    tokenExp demoLoginRes.access_token = some (1000 + fifteenMinutes) :=
  ⟨(c5_login_token_lifetimes demoEnv emptyStore 1000 demoUser demoLoginRes demoLoginStore
      rfl).1,
   (c5_login_token_lifetimes demoEnv emptyStore 1000 demoUser demoLoginRes demoLoginStore
      rfl).2.2.2.1⟩

/-- C2: refreshToken fails with Unauthorized exactly when the lookup returns no
record or the record is expired; any other internal failure surfaces as
InternalError with message "Problem with token processing", and no other error
escapes. -/
theorem c2_refreshToken_error_classification (env : Env) (st : Store) (now : Int) (t : Token) :
    ((∃ m, (refreshToken env st now t).1 = .error (.unauthorized m)) ↔
      findValidToken st t = none ∨
        ∃ r, findValidToken st t = some r ∧ now > r.expiresAt) ∧
    (∀ e, (refreshToken env st now t).1 = .error e →
      e = .unauthorized "Invalid refresh token" ∨
        e = .internalServerError "Problem with token processing") := by
  unfold refreshToken refreshTokenTry
  cases hf : findValidToken st t with
  | none =>
    simp [reclassify, Thrown.status, Thrown.message]
  | some r =>
    by_cases he : now > r.expiresAt
    · simp [he, reclassify, Thrown.status, Thrown.message]
    · simp only [if_neg he]
      cases hrev : env.revokeResult with
      | some e => cases e <;> simp [reclassify, Thrown.status, he]
      | none =>
        cases hu : env.getUserByEmailResult r.userEmail with
        | error e2 => cases e2 <;> simp [reclassify, Thrown.status, he]
        | ok uo =>
          cases uo with
          | none => simp [reclassify, Thrown.status, he]
          | some u2 =>
            cases hs : env.saveResult with
            | some e3 => cases e3 <;> simp [reclassify, Thrown.status, he]
            | none =>
              cases hv : env.visitorResult with
              | some e4 => cases e4 <;> simp [reclassify, Thrown.status, he]
              | none => simp [he]

/-- Closed instance of c2_refreshToken_error_classification: an unknown token
string is rejected as Unauthorized. -/
theorem c2_refreshToken_error_classification_witness :
    ∃ m, (refreshToken demoEnv emptyStore 1000 (.malformed "garbage")).1 =
      .error (.unauthorized m) :=
  (c2_refreshToken_error_classification demoEnv emptyStore 1000 (.malformed "garbage")).1.mpr
    (Or.inl rfl)

/-- C9: whenever refreshToken fails with Unauthorized, the returned store is
exactly the input store: nothing was revoked and nothing was saved. -/
theorem c9_unauthorized_leaves_store_unchanged (env : Env) (st : Store) (now : Int)
    (t : Token) (m : String)
    (h : (refreshToken env st now t).1 = .error (.unauthorized m)) :
    (refreshToken env st now t).2 = st := by
  cases hf : findValidToken st t with
  | none => simp [refreshToken, refreshTokenTry, hf]
  | some r =>
    by_cases he : now > r.expiresAt
    · simp [refreshToken, refreshTokenTry, hf, he]
    · cases hrev : env.revokeResult with
      | some e => simp [refreshToken, refreshTokenTry, hf, he, hrev]
      | none =>
        cases hu : env.getUserByEmailResult r.userEmail with
        | error e2 =>
          cases e2 <;>
            simp [refreshToken, refreshTokenTry, hf, he, hrev, hu, reclassify,
              Thrown.status] at h
        | ok uo =>
          cases uo with
          | none =>
            simp [refreshToken, refreshTokenTry, hf, he, hrev, hu, reclassify,
              Thrown.status] at h
          | some u2 =>
            cases hs : env.saveResult with
            | some e3 =>
              cases e3 <;>
                simp [refreshToken, refreshTokenTry, hf, he, hrev, hu, hs, reclassify,
                  Thrown.status] at h
            | none =>
              cases hv : env.visitorResult with
              | some e4 =>
                cases e4 <;>
                  simp [refreshToken, refreshTokenTry, hf, he, hrev, hu, hs, hv,
                    reclassify, Thrown.status] at h
              | none =>
                simp [refreshToken, refreshTokenTry, hf, he, hrev, hu, hs, hv] at h

/-- Closed instance of c9_unauthorized_leaves_store_unchanged: rejecting an
expired token leaves the store as it was. -/
theorem c9_unauthorized_leaves_store_unchanged_witness :
    (refreshToken demoEnv demoStore 999999999 demoToken).2 = demoStore :=
  c9_unauthorized_leaves_store_unchanged demoEnv demoStore 999999999 demoToken
    "Invalid refresh token" rfl

/-- C10: if the presented record is found valid and revocation succeeds but the
user lookup fails (rejection or null) or saving the replacement fails, then
refreshToken throws InternalError "Problem with token processing" while every
record with the presented record's id stays revoked in the final store — the
revocation is not rolled back. -/
theorem c10_no_rollback_after_revocation (env : Env) (st : Store) (now : Int) (t : Token)
    (r : RefreshTokenRecord)
    (hf : findValidToken st t = some r) (he : ¬ now > r.expiresAt)
    (hrev : env.revokeResult = none)
    (hfail : (∃ e, env.getUserByEmailResult r.userEmail = .error e) ∨
      env.getUserByEmailResult r.userEmail = .ok none ∨
      ((∃ u, env.getUserByEmailResult r.userEmail = .ok (some u)) ∧
        ∃ e, env.saveResult = some e)) :
    (refreshToken env st now t).1 =
      .error (.internalServerError "Problem with token processing") ∧
    ∀ rec ∈ (refreshToken env st now t).2.records, rec.id = r.id → rec.revoked = true := by
  have hmain : (refreshToken env st now t).1 =
      .error (.internalServerError "Problem with token processing") ∧
      (refreshToken env st now t).2 = revokeToken st r.id := by
    rcases hfail with ⟨e, hu⟩ | hu | ⟨⟨u, hu⟩, e, hs⟩
    · cases e <;>
        simp [refreshToken, refreshTokenTry, hf, he, hrev, hu, reclassify, Thrown.status]
    · simp [refreshToken, refreshTokenTry, hf, he, hrev, hu, reclassify, Thrown.status]
    · cases e <;>
        simp [refreshToken, refreshTokenTry, hf, he, hrev, hu, hs, reclassify,
          Thrown.status]
  refine ⟨hmain.1, ?_⟩
  rw [hmain.2]
  intro rec hmem hid
  unfold revokeToken at hmem
  simp only [List.mem_map] at hmem
  obtain ⟨orig, _, horig⟩ := hmem
  by_cases ho : orig.id = r.id
  · rw [if_pos ho] at horig
    rw [← horig]
  · rw [if_neg ho] at horig
    subst horig
    exact absurd hid ho

/-- Closed instance of c10_no_rollback_after_revocation: when saving the
rotated token fails, the presented record is left revoked and the call reports
InternalError. -/
theorem c10_no_rollback_after_revocation_witness :
    (refreshToken envSaveFail demoStore 1000 demoToken).1 =
      .error (.internalServerError "Problem with token processing") :=
  (c10_no_rollback_after_revocation envSaveFail demoStore 1000 demoToken demoRecord
    rfl (by decide) rfl
    (Or.inr (Or.inr ⟨⟨demoUser, rfl⟩, ⟨.storeFailure "db down", rfl⟩⟩))).1

/-- After a rotation (revoke the found record, save a fresh token), no live
record for the old token string remains, provided the fresh token differs from
the old string and the found record was the only live record for that
string. -/
lemma findValidToken_after_rotation (st : Store) (r : RefreshTokenRecord)
    (t newTok : Token) (em : String) (e2 : Int)
    (huniq : ∀ r' ∈ st.records, r'.token = t → r'.revoked = false → r'.id = r.id)
    (hfresh : newTok ≠ t) :
    findValidToken (saveToken (revokeToken st r.id) em newTok e2) t = none := by
  unfold findValidToken saveToken revokeToken
  rw [List.find?_eq_none]
  intro x hx
  simp only [List.mem_append, List.mem_map, List.mem_singleton] at hx
  rcases hx with ⟨orig, hin, horig⟩ | rfl
  · by_cases ho : orig.id = r.id
    · rw [if_pos ho] at horig
      subst horig
      simp
    · rw [if_neg ho] at horig
      subst horig
      simp only [Bool.and_eq_true, decide_eq_true_eq, Bool.not_eq_true']
      rintro ⟨htok, hrv⟩
      exact ho (huniq orig hin htok hrv)
  · simp [hfresh]

/-- Counterexample to C1 as stated.  JwtService signing is deterministic in
(payload, expiry), so a rotation performed at the same timestamp as the
original issuance re-issues the byte-identical token string (the repository's
own e2e test sleeps 1001 ms before refreshing to avoid exactly this).  Here a
refresh of demoToken at its own issuance time 1000 succeeds and stores a fresh
record whose token string equals demoToken, so a second refresh with the same
string also succeeds instead of failing with Unauthorized. -/
theorem c1_counterexample :
    (refreshToken demoEnv demoStore 1000 demoToken).1 =
      .ok ⟨.signed demoSecret demoPayload 1900, demoToken⟩ ∧
    (refreshToken demoEnv (refreshToken demoEnv demoStore 1000 demoToken).2
        1000 demoToken).1 =
      .ok ⟨.signed demoSecret demoPayload 1900, demoToken⟩ :=
  ⟨rfl, rfl⟩

/-- C1 (amended): after one successful refreshToken(t) — the found record being
the only live record for t — a second call with the same string t fails with
Unauthorized at every later time, provided the replacement token issued by the
rotation differs from t (which holds whenever the rotation timestamp differs
from the original issuance). -/
theorem c1_single_use_rotation (env : Env) (st : Store) (now1 : Int) (t : Token)
    (r : RefreshTokenRecord) (u : User)
    (hf : findValidToken st t = some r) (he : ¬ now1 > r.expiresAt)
    (hu : env.getUserByEmailResult r.userEmail = .ok (some u))
    (hrev : env.revokeResult = none) (hsave : env.saveResult = none)
    (hvis : env.visitorResult = none)
    (huniq : ∀ r' ∈ st.records, r'.token = t → r'.revoked = false → r'.id = r.id)
    (hfresh : sign env.secret ⟨u.id, u.email, u.role⟩ sevenDays now1 ≠ t) :
    (∃ p : TokenPair, (refreshToken env st now1 t).1 = .ok p) ∧
    ∀ now2 : Int, (refreshToken env (refreshToken env st now1 t).2 now2 t).1 =
      .error (.unauthorized "Invalid refresh token") := by
  have hrun : refreshToken env st now1 t =
      (.ok ⟨sign env.secret ⟨u.id, u.email, u.role⟩ fifteenMinutes now1,
            sign env.secret ⟨u.id, u.email, u.role⟩ sevenDays now1⟩,
       saveToken (revokeToken st r.id) u.email
         (sign env.secret ⟨u.id, u.email, u.role⟩ sevenDays now1) (now1 + sevenDays)) := by
    simp [refreshToken, refreshTokenTry, hf, he, hu, hrev, hsave, hvis, sign]
  have hnone := findValidToken_after_rotation st r t
    (sign env.secret ⟨u.id, u.email, u.role⟩ sevenDays now1) u.email (now1 + sevenDays)
    huniq hfresh
  constructor
  · exact ⟨_, by rw [hrun]⟩
  · intro now2
    rw [hrun]
    simp [refreshToken, refreshTokenTry, hnone, reclassify, Thrown.status, Thrown.message]

/-- Closed instance of c1_single_use_rotation: rotating at time 2000 a token
issued at time 1000, then retrying the original string at time 3000. -/
theorem c1_single_use_rotation_witness :
    (∃ p : TokenPair, (refreshToken demoEnv demoStore 2000 demoToken).1 = .ok p) ∧
    (refreshToken demoEnv (refreshToken demoEnv demoStore 2000 demoToken).2 3000
        demoToken).1 = .error (.unauthorized "Invalid refresh token") :=
  ⟨(c1_single_use_rotation demoEnv demoStore 2000 demoToken demoRecord demoUser
      rfl (by decide) rfl rfl rfl rfl (by decide) (by decide)).1,
   (c1_single_use_rotation demoEnv demoStore 2000 demoToken demoRecord demoUser
      rfl (by decide) rfl rfl rfl rfl (by decide) (by decide)).2 3000⟩

/-- Counterexample to C4 as stated: the visitor-counter call is awaited on the
critical path, and its failure changes the outcome of both operations — login
propagates the rejection uncaught and refreshToken masks it as InternalError —
even though with a healthy counter both calls succeed on the same inputs. -/
theorem c4_counterexample :
    (login demoEnv emptyStore 1000 demoUser).1 = .ok demoLoginRes ∧
    (login envVisFail emptyStore 1000 demoUser).1 =
      .error (.uncaught (.collab (.storeFailure "visitor down"))) ∧
    (refreshToken demoEnv demoStore 1000 demoToken).1 =
      .ok ⟨.signed demoSecret demoPayload 1900, demoToken⟩ ∧
    (refreshToken envVisFail demoStore 1000 demoToken).1 =
      .error (.internalServerError "Problem with token processing") :=
  ⟨rfl, rfl, rfl, rfl⟩

/-- C4 (amended): the visitor-counter call is awaited inside both operations:
whenever it fails, login cannot succeed (the rejection escapes uncaught) and
refreshToken cannot succeed (the failure is masked as InternalError). -/
theorem c4_visitor_awaited_on_critical_path (env : Env) (st : Store) (now : Int)
    (u : User) (t : Token) (e : CollabErr) (hv : env.visitorResult = some e) :
    (∀ res, (login env st now u).1 ≠ .ok res) ∧
    (∀ p, (refreshToken env st now t).1 ≠ .ok p) := by
  constructor
  · intro res h
    simp only [login] at h
    cases hid : env.getUserByIdResult u.id with
    | error e2 => rw [hid] at h; simp at h
    | ok uo =>
      rw [hid] at h
      cases uo with
      | none => simp at h
      | some ui =>
        cases hs : env.saveResult with
        | some e3 => rw [hs] at h; simp at h
        | none => rw [hs, hv] at h; simp at h
  · intro p h
    cases hf : findValidToken st t with
    | none => simp [refreshToken, refreshTokenTry, hf] at h
    | some r =>
      by_cases he : now > r.expiresAt
      · simp [refreshToken, refreshTokenTry, hf, he] at h
      · cases hrev : env.revokeResult with
        | some e2 => simp [refreshToken, refreshTokenTry, hf, he, hrev] at h
        | none =>
          cases hu : env.getUserByEmailResult r.userEmail with
          | error e2 => simp [refreshToken, refreshTokenTry, hf, he, hrev, hu] at h
          | ok uo =>
            cases uo with
            | none => simp [refreshToken, refreshTokenTry, hf, he, hrev, hu] at h
            | some u2 =>
              cases hs : env.saveResult with
              | some e3 =>
                simp [refreshToken, refreshTokenTry, hf, he, hrev, hu, hs] at h
              | none =>
                simp [refreshToken, refreshTokenTry, hf, he, hrev, hu, hs, hv] at h

/-- Closed instance of c4_visitor_awaited_on_critical_path. -/
theorem c4_visitor_awaited_on_critical_path_witness :
    (login envVisFail emptyStore 1000 demoUser).1 ≠ .ok demoLoginRes :=
  (c4_visitor_awaited_on_critical_path envVisFail emptyStore 1000 demoUser demoToken
    (.storeFailure "visitor down") rfl).1 demoLoginRes

/-- Local state of one in-flight refreshToken call, one constructor per
suspension point of the source: before the store lookup, before revokeToken,
before getUserByEmail, before saveToken, before upsertVisitorCount, and
finished.  Between two suspension points the code runs synchronously, so each
step is atomic against the shared store. -/
inductive RTLocal where
  | atFind
  | atRevoke (stored : RefreshTokenRecord)
  | atLookup (stored : RefreshTokenRecord)
  | atSave (user : User)
  | atVisitor (user : User) (newTok : Token)
  | finished (res : Except AuthError TokenPair)

/-- One atomic step of an in-flight refreshToken call against the shared store,
following refreshTokenTry with the catch clause already folded into the
finished results. -/
def rtStep (env : Env) (now : Int) (t : Token) :
    RTLocal → Store → RTLocal × Store
  | .atFind, st =>
    match findValidToken st t with
    | none => (.finished (.error (.unauthorized "Invalid refresh token")), st)
    | some r =>
      if now > r.expiresAt then
        (.finished (.error (.unauthorized "Invalid refresh token")), st)
      else (.atRevoke r, st)
  | .atRevoke r, st =>
    match env.revokeResult with
    | some _ =>
      (.finished (.error (.internalServerError "Problem with token processing")), st)
    | none => (.atLookup r, revokeToken st r.id)
  | .atLookup r, st =>
    match env.getUserByEmailResult r.userEmail with
    | .ok (some u) => (.atSave u, st)
    | _ =>
      (.finished (.error (.internalServerError "Problem with token processing")), st)
  | .atSave u, st =>
    match env.saveResult with
    | some _ =>
      (.finished (.error (.internalServerError "Problem with token processing")), st)
    | none =>
      let newTok := sign env.secret ⟨u.id, u.email, u.role⟩ sevenDays now
      (.atVisitor u newTok, saveToken st u.email newTok (now + sevenDays))
  | .atVisitor u newTok, st =>
    match env.visitorResult with
    | some _ =>
      (.finished (.error (.internalServerError "Problem with token processing")), st)
    | none =>
      (.finished (.ok ⟨sign env.secret ⟨u.id, u.email, u.role⟩ fifteenMinutes now,
        newTok⟩), st)
  | .finished res, st => (.finished res, st)

/-- Interleaved execution of two concurrent refreshToken calls presenting the
same token string: `true` schedules one step of the first call, `false` one
step of the second. -/
def runSchedule (env : Env) (now : Int) (t : Token) :
    List Bool → RTLocal × RTLocal × Store → RTLocal × RTLocal × Store
  | [], s => s
  | b :: rest, (l1, l2, st) =>
    if b then
      let p := rtStep env now t l1 st
      runSchedule env now t rest (p.1, l2, p.2)
    else
      let p := rtStep env now t l2 st
      runSchedule env now t rest (l1, p.1, p.2)

/-- Schedule in which both calls pass the lookup-and-check step before either
revocation commits (the check-then-act race). -/
def raceSchedule : List Bool := [true, false, true, true, true, true, false, false, false, false]

/-- Schedule in which the first call runs to completion before the second
starts. -/
def seqSchedule : List Bool := [true, true, true, true, true, false, false, false, false, false]

/-- A single call stepped to completion with the other thread never scheduled
reaches exactly the result and final store of refreshToken: the step relation
refines the sequential operation. -/
lemma runSchedule_single_thread (env : Env) (st : Store) (now : Int) (t : Token)
    (l2 : RTLocal) :
    runSchedule env now t [true, true, true, true, true] (.atFind, l2, st) =
      (.finished (refreshToken env st now t).1, l2, (refreshToken env st now t).2) := by
  cases hf : findValidToken st t with
  | none =>
    simp [runSchedule, rtStep, refreshToken, refreshTokenTry, hf, reclassify,
      Thrown.status, Thrown.message]
  | some r =>
    by_cases he : now > r.expiresAt
    · simp [runSchedule, rtStep, refreshToken, refreshTokenTry, hf, he, reclassify,
        Thrown.status, Thrown.message]
    · cases hrev : env.revokeResult with
      | some e =>
        cases e <;>
          simp [runSchedule, rtStep, refreshToken, refreshTokenTry, hf, he, hrev,
            reclassify, Thrown.status]
      | none =>
        cases hu : env.getUserByEmailResult r.userEmail with
        | error e2 =>
          cases e2 <;>
            simp [runSchedule, rtStep, refreshToken, refreshTokenTry, hf, he, hrev, hu,
              reclassify, Thrown.status]
        | ok uo =>
          cases uo with
          | none =>
            simp [runSchedule, rtStep, refreshToken, refreshTokenTry, hf, he, hrev, hu,
              reclassify, Thrown.status]
          | some u =>
            cases hs : env.saveResult with
            | some e3 =>
              cases e3 <;>
                simp [runSchedule, rtStep, refreshToken, refreshTokenTry, hf, he, hrev,
                  hu, hs, reclassify, Thrown.status]
            | none =>
              cases hv : env.visitorResult with
              | some e4 =>
                cases e4 <;>
                  simp [runSchedule, rtStep, refreshToken, refreshTokenTry, hf, he, hrev,
                    hu, hs, hv, reclassify, Thrown.status]
              | none =>
                simp [runSchedule, rtStep, refreshToken, refreshTokenTry, hf, he, hrev,
                  hu, hs, hv]

/-- Counterexample to C8 as stated: under raceSchedule, two concurrent
refreshes of the same valid token BOTH return a success payload — the
read-then-write rotation gives no at-most-one guarantee. -/
theorem c8_counterexample :
    (runSchedule demoEnv 2000 demoToken raceSchedule (.atFind, .atFind, demoStore)).1 =
      .finished (.ok ⟨.signed demoSecret demoPayload 2900,
        .signed demoSecret demoPayload 606800⟩) ∧
    (runSchedule demoEnv 2000 demoToken raceSchedule (.atFind, .atFind, demoStore)).2.1 =
      .finished (.ok ⟨.signed demoSecret demoPayload 2900,
        .signed demoSecret demoPayload 606800⟩) :=
  ⟨rfl, rfl⟩

/-- C8 (amended): the service does not guarantee at-most-one success for two
concurrent refreshes of the same valid token: when both calls pass the
lookup-and-check suspension point before either revocation commits, both
succeed; only when the two calls are serialized (and the rotation issues a
fresh string) does exactly one succeed. -/
theorem c8_at_most_one_not_guaranteed (env : Env) (st : Store) (now : Int) (t : Token)
    (r : RefreshTokenRecord) (u : User)
    (hf : findValidToken st t = some r) (he : ¬ now > r.expiresAt)
    (hu : env.getUserByEmailResult r.userEmail = .ok (some u))
    (hrev : env.revokeResult = none) (hsave : env.saveResult = none)
    (hvis : env.visitorResult = none)
    (huniq : ∀ r' ∈ st.records, r'.token = t → r'.revoked = false → r'.id = r.id)
    (hfresh : sign env.secret ⟨u.id, u.email, u.role⟩ sevenDays now ≠ t) :
    ((runSchedule env now t raceSchedule (.atFind, .atFind, st)).1 =
        .finished (.ok ⟨sign env.secret ⟨u.id, u.email, u.role⟩ fifteenMinutes now,
          sign env.secret ⟨u.id, u.email, u.role⟩ sevenDays now⟩) ∧
      (runSchedule env now t raceSchedule (.atFind, .atFind, st)).2.1 =
        .finished (.ok ⟨sign env.secret ⟨u.id, u.email, u.role⟩ fifteenMinutes now,
          sign env.secret ⟨u.id, u.email, u.role⟩ sevenDays now⟩)) ∧
    ((runSchedule env now t seqSchedule (.atFind, .atFind, st)).1 =
        .finished (.ok ⟨sign env.secret ⟨u.id, u.email, u.role⟩ fifteenMinutes now,
          sign env.secret ⟨u.id, u.email, u.role⟩ sevenDays now⟩) ∧
      (runSchedule env now t seqSchedule (.atFind, .atFind, st)).2.1 =
        .finished (.error (.unauthorized "Invalid refresh token"))) := by
  have hnone := findValidToken_after_rotation st r t
    (sign env.secret ⟨u.id, u.email, u.role⟩ sevenDays now) u.email (now + sevenDays)
    huniq hfresh
  constructor
  · constructor <;>
      simp [runSchedule, rtStep, raceSchedule, hf, he, hu, hrev, hsave, hvis]
  · constructor <;>
      simp [runSchedule, rtStep, seqSchedule, hf, he, hu, hrev, hsave, hvis, hnone]

/-- Closed instance of c8_at_most_one_not_guaranteed. -/
theorem c8_at_most_one_not_guaranteed_witness :
    (runSchedule demoEnv 2000 demoToken seqSchedule (.atFind, .atFind, demoStore)).2.1 =
      .finished (.error (.unauthorized "Invalid refresh token")) :=
  (c8_at_most_one_not_guaranteed demoEnv demoStore 2000 demoToken demoRecord demoUser
    rfl (by decide) rfl rfl rfl rfl (by decide) (by decide)).2.2

end RecommendSite
